import Mathlib

/-!
Verification development for the interaction/concurrency controller of a
single-file chess GUI (`kchess.py`).  The chess rules engine (the
`python-chess` library) and the move-search oracle are external
collaborators; they are modelled by an abstract `Rules` interface whose
fields are exactly the operations the controller invokes on them.  The
controller itself (selection state machine, confirmation gate, colour
resolution, result-merge loop) is translated faithfully from the source.
-/

/-- Side colour, mirroring `chess.WHITE` / `chess.BLACK`. -/
inductive PColor : Type where
  | white
  | black
deriving DecidableEq, Repr

/-- Piece kinds, mirroring `chess.PAWN`, `chess.KNIGHT`, ... -/
inductive PieceType : Type where
  | pawn
  | knight
  | bishop
  | rook
  | queen
  | king
deriving DecidableEq, Repr

/-- A piece as returned by `board.piece_at`: a colour and a kind. -/
structure Piece : Type where
  color : PColor
  pieceType : PieceType
deriving DecidableEq, Repr

/-- Identifiers of the three confirmation-gated buttons
(`'RESTART'`, `'EXIT'`, `'-TOGGLE-BOT-'`), the only values ever stored in
`confirm_states`. -/
inductive GatedId : Type where
  | restart
  | exitApp
  | toggleBot
deriving DecidableEq, Repr

/-- One user-interface event read by `window.read(timeout=100)`:
the gated buttons, the plain buttons (`'-SKIP-'`, `'-SET-BOARD-'` together
with the text the FEN popup returned, `'-ASISTENTE-'`), a board-cell click
`(r, f)`, or the 100 ms timeout tick. -/
inductive Event : Type where
  | restart
  | exitApp
  | toggleBot
  | skip
  | setBoard (fen : Option String)
  | asistente
  | cell (r f : Nat)
  | timeout
deriving DecidableEq, Repr

/-- Observable side effects of one pass through the loop body: popups,
background-thread dispatches (carrying the `board.copy()` snapshot),
execution of a gated action, and leaving the loop. -/
inductive Effect (P M : Type) : Type where
  | wrong_turn_notice
  | invalid_move_notice
  | invalid_fen_notice
  | game_over_popup (winner : Option PColor)
  | dispatch_play (snapshot : P)
  | dispatch_suggest (snapshot : P)
  | executed_gated (g : GatedId)
  | app_exited
deriving DecidableEq, Repr

/-- The external rules collaborator: the operations of `chess.Board` (and
`chess.Move`) that the controller calls, over an abstract position type `P`
and move type `M`.  `startpos` is the standard initial position, produced
both by `chess.Board()` and by `board.reset()`. -/
structure Rules (P M : Type) : Type where
  legal_moves : P → List M
  push : P → M → P
  startpos : P
  turn : P → PColor
  is_game_over : P → Bool
  outcome_winner : P → Option PColor
  piece_at : P → Nat → Option Piece
  is_capture : P → M → Bool
  is_castling : P → M → Bool
  is_en_passant : P → M → Bool
  from_square : M → Nat
  to_square : M → Nat
  set_queen_promotion : M → M
  truthy : M → Bool
  null_move : M
  set_fen : P → String → Option P

/-- The mutable globals of the program (section 2 of the source):
board, selection, suggestion, mode flags, confirmation set and the
game-over latch.  `valid_moves_squares` is the dict mapping a destination
square to the legal move reaching it. -/
structure GState (P M : Type) : Type where
  board : P
  selected_square : Option Nat
  valid_moves_squares : List (Nat × M)
  engine_suggestion : Option M
  is_bot_enabled : Bool
  is_assistant_enabled : Bool
  confirm_states : List GatedId
  game_over_notified : Bool
deriving DecidableEq, Repr

/-- The initial values of the globals at program start. -/
def initState (R : Rules P M) : GState P M :=
  { board := R.startpos
    selected_square := none
    valid_moves_squares := []
    engine_suggestion := none
    is_bot_enabled := false
    is_assistant_enabled := false
    confirm_states := []
    game_over_notified := false }

/-- COLORS["LIGHT"]. -/
def COLORS_LIGHT : String := "#FFFFFF"

/-- COLORS["DARK"]. -/
def COLORS_DARK : String := "#757575"

/-- COLORS["SELECTED"]. -/
def COLORS_SELECTED : String := "#00BCD4"

/-- COLORS["VALID_LIGHT"]. -/
def COLORS_VALID_LIGHT : String := "#66BB6A"

/-- COLORS["VALID_DARK"]. -/
def COLORS_VALID_DARK : String := "#2E7D32"

/-- COLORS["CAPTURE"]. -/
def COLORS_CAPTURE : String := "#FFFF00"

/-- COLORS["SPECIAL"]. -/
def COLORS_SPECIAL : String := "#FF00FF"

/-- COLORS["SUGGESTED_P1"]. -/
def COLORS_SUGGESTED_P1 : String := "#00FFFF"

/-- COLORS["SUGGESTED_P2"]. -/
def COLORS_SUGGESTED_P2 : String := "#AA00FF"

/-- COLORS["ERROR"]. -/
def COLORS_ERROR : String := "#FF0000"

/-- Function `reset_selection`: clears `selected_square` and
`valid_moves_squares`; deliberately does NOT clear `engine_suggestion`
(comment in the source: the suggestion must persist). -/
def reset_selection (st : GState P M) : GState P M :=
  { st with selected_square := none, valid_moves_squares := [] }

/-- Function `get_sq_color`: computes the display colour of one square,
translated line by line from the source (priority comments included). -/
def get_sq_color (R : Rules P M) [DecidableEq M] (st : GState P M)
    (sq_idx : Nat) : String :=
  let sq_rank := sq_idx / 8
  let sq_file := sq_idx % 8
  let is_dark := (sq_rank + sq_file) % 2 == 0
  let base := if is_dark then COLORS_DARK else COLORS_LIGHT
  -- PRIORIDAD 1: selected square
  if st.selected_square = some sq_idx then COLORS_SELECTED
  else
    -- PRIORIDAD 2: captures and special moves
    let prio2 : Option String :=
      match List.lookup sq_idx st.valid_moves_squares with
      | some move =>
          if R.is_capture st.board move then some COLORS_CAPTURE
          else if R.is_en_passant st.board move || R.is_castling st.board move then
            some COLORS_SPECIAL
          else none
      | none => none
    match prio2 with
    | some c => c
    | none =>
      -- PRIORIDAD 3: assistant suggestion
      let prio3 : Option String :=
        match st.engine_suggestion with
        | some sugg =>
            if st.is_assistant_enabled && R.truthy sugg
                && decide (sugg ∈ R.legal_moves st.board)
                && (sq_idx == R.from_square sugg || sq_idx == R.to_square sugg)
                && !(st.is_bot_enabled && decide (R.turn st.board = PColor.black)) then
              some (if R.turn st.board = PColor.white then COLORS_SUGGESTED_P1
                    else COLORS_SUGGESTED_P2)
            else none
        | none => none
      match prio3 with
      | some c => c
      | none =>
        -- PRIORIDAD 4: plain valid moves
        if (List.lookup sq_idx st.valid_moves_squares).isSome then
          if is_dark then COLORS_VALID_DARK else COLORS_VALID_LIGHT
        else base

/-- Modelled from the spec, section 4.3: the colour-resolution function as a
strict first-match priority chain, written from the specification words,
to be compared with `get_sq_color` (which is translated from the source). -/
def resolveSpec (R : Rules P M) [DecidableEq M] (st : GState P M)
    (square : Nat) : String :=
  let destMove := List.lookup square st.valid_moves_squares
  let is_dark := (square / 8 + square % 8) % 2 == 0
  if st.selected_square = some square then COLORS_SELECTED
  else if (match destMove with
           | some m => R.is_capture st.board m
           | none => false) then COLORS_CAPTURE
  else if (match destMove with
           | some m => R.is_castling st.board m || R.is_en_passant st.board m
           | none => false) then COLORS_SPECIAL
  else if (match st.engine_suggestion with
           | some sugg =>
               st.is_assistant_enabled
                 && decide (sugg ∈ R.legal_moves st.board)
                 && (square == R.from_square sugg || square == R.to_square sugg)
                 && !(st.is_bot_enabled && decide (R.turn st.board = PColor.black))
           | none => false) then
    (if R.turn st.board = PColor.white then COLORS_SUGGESTED_P1
     else COLORS_SUGGESTED_P2)
  else if destMove.isSome then
    (if is_dark then COLORS_VALID_DARK else COLORS_VALID_LIGHT)
  else (if is_dark then COLORS_DARK else COLORS_LIGHT)

/-- The pure, user-visible part of `update_ui` (lines 147-208 of the
source): labels, turn indicators, confirmation-button states, and the
skip button, which the source disables with `disabled=is_bot_enabled`. -/
structure RenderView : Type where
  p2_label : String
  ind_p1_on : Bool
  ind_p2_on : Bool
  restart_confirm : Bool
  exit_confirm : Bool
  togglebot_confirm : Bool
  assistant_on : Bool
  skip_disabled : Bool
deriving DecidableEq, Repr

/-- Render computation of `update_ui` (widget updates, without the
game-over block). -/
def render_view (R : Rules P M) (st : GState P M) : RenderView :=
  { p2_label := if st.is_bot_enabled then "BOT" else "JUGADOR 2"
    ind_p1_on := decide (R.turn st.board = PColor.white)
    ind_p2_on := decide (R.turn st.board = PColor.black)
    restart_confirm := decide (GatedId.restart ∈ st.confirm_states)
    exit_confirm := decide (GatedId.exitApp ∈ st.confirm_states)
    togglebot_confirm := decide (GatedId.toggleBot ∈ st.confirm_states)
    assistant_on := st.is_assistant_enabled
    skip_disabled := st.is_bot_enabled }

/-- The state-mutating tail of `update_ui` (lines 210-229): if the game is
over and the message has not been shown yet, latch `game_over_notified`
and emit the outcome popup. -/
def update_ui (R : Rules P M) (st : GState P M) :
    GState P M × List (Effect P M) :=
  if R.is_game_over st.board && !st.game_over_notified then
    ({ st with game_over_notified := true },
     [Effect.game_over_popup (R.outcome_winner st.board)])
  else (st, [])

/-- Insert-or-replace for the destination dictionary, matching the
semantics of a Python dict comprehension (a later move with the same
destination square replaces the earlier one). -/
def dict_insert (d : List (Nat × M)) (k : Nat) (v : M) : List (Nat × M) :=
  match d with
  | [] => [(k, v)]
  | (k1, v1) :: rest =>
      if k1 = k then (k, v) :: rest else (k1, v1) :: dict_insert rest k v

/-- The dict comprehension of line 563:
all legal moves whose origin is `sq`, keyed by destination square. -/
def build_valid_moves (R : Rules P M) (p : P) (sq : Nat) : List (Nat × M) :=
  (R.legal_moves p).foldl
    (fun d m => if R.from_square m == sq then dict_insert d (R.to_square m) m else d)
    []

/-- The auto-promotion test of line 583: the selected piece is a pawn and
the move destination is on the first or last rank. -/
def pawn_promo_check (R : Rules P M) (st : GState P M) (sel : Nat) (m : M) : Bool :=
  (match R.piece_at st.board sel with
   | some piece => piece.pieceType == PieceType.pawn
   | none => false)
  && (R.to_square m / 8 == 0 || R.to_square m / 8 == 7)

/-- The repeated guard `is_bot_enabled and board.turn == chess.BLACK`. -/
def bot_black_turn (R : Rules P M) (st : GState P M) : Bool :=
  st.is_bot_enabled && decide (R.turn st.board = PColor.black)

/-- The shared tail of executing `'RESTART'` or `'-TOGGLE-BOT-'`
(lines 486-492): clear the selection, redraw, and re-dispatch a suggestion
request when the assistant condition holds. -/
def gated_common_tail (R : Rules P M) (st : GState P M) (g : GatedId) :
    GState P M × List (Effect P M) × Bool :=
  let st := reset_selection st
  let p := update_ui R st
  let e2 := if p.1.is_assistant_enabled && !(R.is_game_over p.1.board)
                && !(bot_black_turn R p.1) then
              [Effect.dispatch_suggest p.1.board]
            else []
  (p.1, Effect.executed_gated g :: (p.2 ++ e2), false)

/-- Handling of the three confirmation-gated buttons (lines 459-492):
first trigger arms, second trigger of the same id executes. -/
def handle_gated (R : Rules P M) (st : GState P M) (g : GatedId) :
    GState P M × List (Effect P M) × Bool :=
  if g ∈ st.confirm_states then
    let st := { st with confirm_states := [] }
    match g with
    | GatedId.exitApp =>
        (st, [Effect.executed_gated GatedId.exitApp, Effect.app_exited], false)
    | GatedId.restart =>
        gated_common_tail R
          { st with board := R.startpos, game_over_notified := false }
          GatedId.restart
    | GatedId.toggleBot =>
        gated_common_tail R
          { st with is_bot_enabled := !st.is_bot_enabled,
                    board := R.startpos, game_over_notified := false }
          GatedId.toggleBot
  else
    let st := { st with confirm_states := [g] }
    let p := update_ui R st
    (p.1, p.2, false)

/-- The `'-SKIP-'` branch (lines 499-510): push a null move, clear the
selection, redraw, dispatch. -/
def handle_skip (R : Rules P M) (st : GState P M) :
    GState P M × List (Effect P M) × Bool :=
  let st := { st with board := R.push st.board R.null_move }
  let st := reset_selection st
  let p := update_ui R st
  let e2 := if bot_black_turn R p.1 then [Effect.dispatch_play p.1.board]
            else if p.1.is_assistant_enabled then [Effect.dispatch_suggest p.1.board]
            else []
  (p.1, p.2 ++ e2, false)

/-- The `'-SET-BOARD-'` branch (lines 513-529): load a FEN string if the
popup returned a non-empty one; on parse failure report and change
nothing. -/
def handle_setboard (R : Rules P M) (st : GState P M) (fen : Option String) :
    GState P M × List (Effect P M) × Bool :=
  match fen with
  | none => (st, [], false)
  | some f =>
    if f = "" then (st, [], false)
    else
      match R.set_fen st.board f with
      | some b2 =>
          let st := { st with board := b2 }
          let st := reset_selection st
          let st := { st with game_over_notified := false }
          let p := update_ui R st
          let e2 := if bot_black_turn R p.1 && !(R.is_game_over p.1.board) then
                      [Effect.dispatch_play p.1.board]
                    else []
          (p.1, p.2 ++ e2, false)
      | none => (st, [Effect.invalid_fen_notice], false)

/-- The `'-ASISTENTE-'` branch (lines 532-542): toggle the assistant; on
the dispatch condition request a suggestion, otherwise clear the stored
suggestion; then redraw. -/
def handle_asistente (R : Rules P M) (st : GState P M) :
    GState P M × List (Effect P M) × Bool :=
  let st := { st with is_assistant_enabled := !st.is_assistant_enabled }
  let q : GState P M × List (Effect P M) :=
    if st.is_assistant_enabled && !(R.is_game_over st.board)
        && !(bot_black_turn R st) then
      (st, [Effect.dispatch_suggest st.board])
    else ({ st with engine_suggestion := none }, [])
  let p := update_ui R q.1
  (p.1, q.2 ++ p.2, false)

/-- The board-cell branch (lines 544-612).  The third component tells
whether control falls through to the queue drains (`true`) or the branch
ended in `continue` (`false`). -/
def handle_cell (R : Rules P M) [DecidableEq M] (st : GState P M)
    (r f : Nat) : GState P M × List (Effect P M) × Bool :=
  if R.is_game_over st.board then (st, [], true)
  else if bot_black_turn R st then (st, [], false)
  else
    let sq := r * 8 + f
    match st.selected_square with
    | none =>
      match R.piece_at st.board sq with
      | some piece =>
          if piece.color = R.turn st.board then
            let st := { st with
                        selected_square := some sq,
                        valid_moves_squares := build_valid_moves R st.board sq }
            let p := update_ui R st
            (p.1, p.2, true)
          else
            let p := update_ui R st
            (p.1, Effect.wrong_turn_notice :: p.2, true)
      | none =>
          let p := update_ui R st
          (p.1, p.2, true)
    | some sel =>
      if sq = sel then
        let st := reset_selection st
        let p := update_ui R st
        (p.1, p.2, false)
      else
        match (R.legal_moves st.board).find?
                (fun m => R.from_square m == sel && R.to_square m == sq) with
        | some m0 =>
            let m := if pawn_promo_check R st sel m0 then R.set_queen_promotion m0
                     else m0
            let st := { st with board := R.push st.board m }
            let st := reset_selection st
            let e2 := if !(R.is_game_over st.board) then
                        (if bot_black_turn R st then [Effect.dispatch_play st.board]
                         else if st.is_assistant_enabled then
                           [Effect.dispatch_suggest st.board]
                         else [])
                      else []
            let p := update_ui R st
            (p.1, e2 ++ p.2, true)
        | none =>
            let st := reset_selection st
            let p := update_ui R st
            (p.1, Effect.invalid_move_notice :: p.2, true)

/-- Event dispatch of one loop iteration before the queue drains.  For the
non-gated events the clearing of `confirm_states` at line 495 is applied
before delegating; a pure timeout leaves the state untouched and falls
through to the drains. -/
def handleEvent (R : Rules P M) [DecidableEq M] (st : GState P M) :
    Event → GState P M × List (Effect P M) × Bool
  | Event.restart => handle_gated R st GatedId.restart
  | Event.exitApp => handle_gated R st GatedId.exitApp
  | Event.toggleBot => handle_gated R st GatedId.toggleBot
  | Event.skip => handle_skip R { st with confirm_states := [] }
  | Event.setBoard fen => handle_setboard R { st with confirm_states := [] } fen
  | Event.asistente => handle_asistente R { st with confirm_states := [] }
  | Event.cell r f => handle_cell R { st with confirm_states := [] } r f
  | Event.timeout => (st, [], true)

/-- The play-channel drain (lines 614-628): the drained move is pushed
onto the board without any legality check, the suggestion is cleared, a
new suggestion request may be dispatched, and the UI is refreshed. -/
def drain_play (R : Rules P M) (st : GState P M) (pm : Option M) :
    GState P M × List (Effect P M) :=
  match pm with
  | none => (st, [])
  | some bot_move =>
      let st := { st with board := R.push st.board bot_move,
                          engine_suggestion := none }
      let e2 := if st.is_assistant_enabled && !(R.is_game_over st.board) then
                  [Effect.dispatch_suggest st.board]
                else []
      let p := update_ui R st
      (p.1, e2 ++ p.2)

/-- The suggestion-channel drain (lines 631-640): a drained suggestion is
installed only if it is legal in the current position. -/
def drain_sugg (R : Rules P M) [DecidableEq M] (st : GState P M)
    (sm : Option M) : GState P M × List (Effect P M) :=
  match sm with
  | none => (st, [])
  | some new_sugg =>
      if new_sugg ∈ R.legal_moves st.board then
        update_ui R { st with engine_suggestion := some new_sugg }
      else (st, [])

/-- One full iteration of the main loop: event dispatch, then — unless the
branch ended in `continue` — the non-blocking drain of the play queue and
of the suggestion queue.  `pq` and `sq` are what `get_nowait` would
return on each queue this tick (`none` = `queue.Empty`). -/
def tick (R : Rules P M) [DecidableEq M] (st : GState P M) (ev : Event)
    (pq sq : Option M) : GState P M × List (Effect P M) :=
  let h := handleEvent R st ev
  if h.2.2 then
    let d1 := drain_play R h.1 pq
    let d2 := drain_sugg R d1.1 sq
    (d2.1, h.2.1 ++ d1.2 ++ d2.2)
  else (h.1, h.2.1)

/-- The environment input of one tick: the event read from the window and
the content each result queue would deliver. -/
structure TickInput (M : Type) : Type where
  ev : Event
  pq : Option M
  sq : Option M
deriving DecidableEq, Repr

/-- Iterated loop: run a list of tick inputs from a state, accumulating
all effects. -/
def run (R : Rules P M) [DecidableEq M] (st : GState P M) :
    List (TickInput M) → GState P M × List (Effect P M)
  | [] => (st, [])
  | i :: rest =>
      let t := tick R st i.ev i.pq i.sq
      let r := run R t.1 rest
      (r.1, t.2 ++ r.2)

/-- A small concrete rules collaborator used to evaluate the controller on
explicit inputs: positions and moves are numbers, the unique legal move at
position `p` is `p` itself, pushing any move advances the position by
`m + 1`, the side to move alternates with parity, and the game is over
from position 5 on. -/
def ToyRules : Rules Nat Nat :=
  { legal_moves := fun p => [p]
    push := fun p m => p + m + 1
    startpos := 0
    turn := fun p => if p % 2 == 0 then PColor.white else PColor.black
    is_game_over := fun p => decide (5 ≤ p)
    outcome_winner := fun p => if p % 2 == 0 then some PColor.white else none
    piece_at := fun _ sq =>
      if sq % 2 == 0 then some ⟨PColor.white, PieceType.pawn⟩ else none
    is_capture := fun _ m => m % 2 == 1
    is_castling := fun _ m => m % 3 == 0 && m % 2 == 0 && 0 < m
    is_en_passant := fun _ _ => false
    from_square := fun m => m % 64
    to_square := fun m => m % 64
    set_queen_promotion := fun m => m
    truthy := fun _ => true
    null_move := 99
    set_fen := fun _ s => if s = "good" then some 3 else none }

/-- Number of game-over popups in an effect list. -/
def popups (effs : List (Effect P M)) : Nat :=
  effs.countP (fun e => match e with
    | Effect.game_over_popup _ => true
    | _ => false)

/-- A state in bot mode with White (the human) to move, used to exercise
the skip button. -/
def stC8 : GState Nat Nat := { initState ToyRules with is_bot_enabled := true }

/-- A state with the opponent-mode toggle pending confirmation. -/
def stC9 : GState Nat Nat :=
  { initState ToyRules with confirm_states := [GatedId.toggleBot] }

/-- A terminal position of the concrete collaborator. -/
def stC10 : GState Nat Nat := { initState ToyRules with board := 5 }

/-- A state with an installed legal suggestion, a selection and a
destination dictionary, exercising several priority levels at once. -/
def stC3 : GState Nat Nat :=
  { initState ToyRules with
      selected_square := some 2
      valid_moves_squares := [(0, 0), (3, 3)]
      engine_suggestion := some 0
      is_assistant_enabled := true }

/-- A concrete state whose stored suggestion (move 3) is illegal in the
current position. -/
def stC4 : GState Nat Nat :=
  { initState ToyRules with
      engine_suggestion := some 3
      is_assistant_enabled := true }

/-- The window event corresponding to a gated action identifier. -/
def gated_event : GatedId → Event
  | GatedId.restart => Event.restart
  | GatedId.exitApp => Event.exitApp
  | GatedId.toggleBot => Event.toggleBot

/-- A state with the restart action pending confirmation. -/
def stC6 : GState Nat Nat :=
  { initState ToyRules with confirm_states := [GatedId.restart] }

/-- The events whose execution can reset the game-over latch: reset,
opponent-mode toggle (which also resets), and position load. -/
def reset_family : Event → Bool
  | Event.restart => true
  | Event.toggleBot => true
  | Event.setBoard _ => true
  | _ => false

/-- One-step contract of the game-over latch: at most one popup, a set
latch suppresses popups and stays set, no popup leaves the latch alone,
and a popup sets the latch. -/
def GonOk (st : GState P M) (p : GState P M × List (Effect P M)) : Prop :=
  popups p.2 ≤ 1 ∧
  (st.game_over_notified = true →
    p.1.game_over_notified = true ∧ popups p.2 = 0) ∧
  (popups p.2 = 0 → p.1.game_over_notified = st.game_over_notified) ∧
  (0 < popups p.2 → p.1.game_over_notified = true)

/-- A terminal position with the latch still clear. -/
def stC7 : GState Nat Nat := { initState ToyRules with board := 5 }

theorem popups_append (a b : List (Effect P M)) :
    popups (a ++ b) = popups a + popups b := by
  simp [popups, List.countP_append]

theorem update_ui_board (R : Rules P M) (st : GState P M) :
    ((update_ui R st).1).board = st.board := by
  unfold update_ui; split <;> rfl

theorem update_ui_selected (R : Rules P M) (st : GState P M) :
    ((update_ui R st).1).selected_square = st.selected_square := by
  unfold update_ui; split <;> rfl

theorem update_ui_valid (R : Rules P M) (st : GState P M) :
    ((update_ui R st).1).valid_moves_squares = st.valid_moves_squares := by
  unfold update_ui; split <;> rfl

theorem update_ui_sugg (R : Rules P M) (st : GState P M) :
    ((update_ui R st).1).engine_suggestion = st.engine_suggestion := by
  unfold update_ui; split <;> rfl

theorem update_ui_bot (R : Rules P M) (st : GState P M) :
    ((update_ui R st).1).is_bot_enabled = st.is_bot_enabled := by
  unfold update_ui; split <;> rfl

theorem update_ui_assistant (R : Rules P M) (st : GState P M) :
    ((update_ui R st).1).is_assistant_enabled = st.is_assistant_enabled := by
  unfold update_ui; split <;> rfl

theorem update_ui_confirm (R : Rules P M) (st : GState P M) :
    ((update_ui R st).1).confirm_states = st.confirm_states := by
  unfold update_ui; split <;> rfl

theorem update_ui_gon (R : Rules P M) (st : GState P M) :
    ((update_ui R st).1).game_over_notified =
      (st.game_over_notified || R.is_game_over st.board) := by
  cases h1 : R.is_game_over st.board <;>
    cases h2 : st.game_over_notified <;>
    simp [update_ui, h1, h2]

theorem update_ui_popups (R : Rules P M) (st : GState P M) :
    popups (update_ui R st).2 =
      (if R.is_game_over st.board && !st.game_over_notified then 1 else 0) := by
  unfold update_ui
  split <;> simp_all [popups]

/-- C1 (counterexample).  From the initial position of the concrete
collaborator, a single timeout tick drains the play result `7`, which is
not legal in the current position; the claim mandates that the state be
left unchanged, yet the board mutates. -/
theorem claim_C1_counterexample :
    7 ∉ ToyRules.legal_moves (initState ToyRules).board ∧
    ((run ToyRules (initState ToyRules)
        [⟨Event.timeout, some 7, none⟩]).1).board ≠
      (initState ToyRules).board := by
  decide

/-- C1 (amended).  A drained play result is applied to the Position
unconditionally — no legality validation happens and the result is never
dropped: after the drain the board is always the push of the drained move
onto the previous board, and the suggestion is cleared. -/
theorem claim_C1_amended (R : Rules P M) [DecidableEq M] (st : GState P M)
    (m : M) :
    ((tick R st Event.timeout (some m) none).1).board = R.push st.board m ∧
    ((tick R st Event.timeout (some m) none).1).engine_suggestion = none := by
  simp only [tick, handleEvent, drain_play, drain_sugg]
  constructor
  · simpa using update_ui_board R _
  · simpa using update_ui_sugg R _

theorem handle_gated_board_or_idle (R : Rules P M) (st : GState P M)
    (g : GatedId) :
    ((handle_gated R st g).1).board = st.board ∨
    (((handle_gated R st g).1).selected_square = none ∧
     ((handle_gated R st g).1).valid_moves_squares = []) := by
  unfold handle_gated
  by_cases hg : g ∈ st.confirm_states
  · simp only [hg, if_true]
    cases g
    · right
      unfold gated_common_tail
      simp [update_ui_selected, update_ui_valid, reset_selection]
    · left; rfl
    · right
      unfold gated_common_tail
      simp [update_ui_selected, update_ui_valid, reset_selection]
  · simp only [hg, if_false]
    left
    simpa using update_ui_board R _

theorem handle_skip_idle (R : Rules P M) (st : GState P M) :
    ((handle_skip R st).1).selected_square = none ∧
    ((handle_skip R st).1).valid_moves_squares = [] := by
  unfold handle_skip
  simp [update_ui_selected, update_ui_valid, reset_selection]

theorem handle_setboard_board_or_idle (R : Rules P M) (st : GState P M)
    (fen : Option String) :
    ((handle_setboard R st fen).1).board = st.board ∨
    (((handle_setboard R st fen).1).selected_square = none ∧
     ((handle_setboard R st fen).1).valid_moves_squares = []) := by
  unfold handle_setboard
  cases fen with
  | none => left; rfl
  | some f =>
    by_cases hf : f = ""
    · simp [hf]
    · simp only [hf, if_false]
      cases hfen : R.set_fen st.board f with
      | none => left; rfl
      | some b2 =>
        right
        simp [update_ui_selected, update_ui_valid, reset_selection]

theorem handle_asistente_board (R : Rules P M) (st : GState P M) :
    ((handle_asistente R st).1).board = st.board := by
  unfold handle_asistente
  dsimp only
  split <;> simpa using update_ui_board R _

theorem handle_cell_board_or_idle (R : Rules P M) [DecidableEq M]
    (st : GState P M) (r f : Nat) :
    ((handle_cell R st r f).1).board = st.board ∨
    (((handle_cell R st r f).1).selected_square = none ∧
     ((handle_cell R st r f).1).valid_moves_squares = []) := by
  unfold handle_cell
  by_cases h1 : R.is_game_over st.board
  · simp [h1]
  · simp only [h1, if_false]
    by_cases h2 : bot_black_turn R st
    · simp only [h2, if_true]; left; rfl
    · simp only [h2, if_false]
      cases hsel : st.selected_square with
      | none =>
        cases hp : R.piece_at st.board (r * 8 + f) with
        | none => left; simpa using update_ui_board R _
        | some piece =>
          by_cases hc : piece.color = R.turn st.board
          · simp only [hc, if_true]
            left; simpa using update_ui_board R _
          · simp only [hc, if_false]
            left; simpa using update_ui_board R _
      | some sel =>
        by_cases hsq : r * 8 + f = sel
        · simp only [hsq, if_true]
          right
          simp [update_ui_selected, update_ui_valid, reset_selection]
        · simp only [hsq, if_false]
          cases hm : (R.legal_moves st.board).find?
              (fun m => R.from_square m == sel && R.to_square m == r * 8 + f) with
          | some m0 =>
            right
            simp [update_ui_selected, update_ui_valid, reset_selection]
          | none =>
            right
            simp [update_ui_selected, update_ui_valid, reset_selection]

/-- C2 (counterexample).  A reachable two-tick trace of the concrete
collaborator: the first click selects square 0 (populating the
destination dictionary), then a play result drained from the play channel
mutates the Position while the Selection survives — the drain never calls
`reset_selection`.  The claim requires Selection to be Idle after this
Position mutation. -/
theorem claim_C2_counterexample :
    ((run ToyRules (initState ToyRules)
        [⟨Event.cell 0 0, none, none⟩]).1).board = 0 ∧
    ((run ToyRules (initState ToyRules)
        [⟨Event.cell 0 0, none, none⟩, ⟨Event.timeout, some 7, none⟩]).1).board = 8 ∧
    ((run ToyRules (initState ToyRules)
        [⟨Event.cell 0 0, none, none⟩, ⟨Event.timeout, some 7, none⟩]).1).selected_square
      = some 0 ∧
    ((run ToyRules (initState ToyRules)
        [⟨Event.cell 0 0, none, none⟩, ⟨Event.timeout, some 7, none⟩]).1).valid_moves_squares
      ≠ [] := by
  decide

/-- C2 (amended).  Every Position mutation performed by event handling
(human move, reset, opponent-mode toggle, FEN load, skip) leaves the
Selection Idle: event handling either keeps the board unchanged or clears
the selection.  A bot move applied from the play result channel, however,
leaves the Selection exactly as it was (it clears only the Suggestion). -/
theorem claim_C2_amended (R : Rules P M) [DecidableEq M] (st : GState P M)
    (ev : Event) (pm : Option M) :
    (((handleEvent R st ev).1).board = st.board ∨
     (((handleEvent R st ev).1).selected_square = none ∧
      ((handleEvent R st ev).1).valid_moves_squares = [])) ∧
    ((drain_play R st pm).1).selected_square = st.selected_square ∧
    ((drain_play R st pm).1).valid_moves_squares = st.valid_moves_squares := by
  refine ⟨?_, ?_, ?_⟩
  · cases ev with
    | restart => exact handle_gated_board_or_idle R st GatedId.restart
    | exitApp => exact handle_gated_board_or_idle R st GatedId.exitApp
    | toggleBot => exact handle_gated_board_or_idle R st GatedId.toggleBot
    | skip => exact Or.inr (handle_skip_idle R _)
    | setBoard fen => exact handle_setboard_board_or_idle R _ fen
    | asistente => exact Or.inl (handle_asistente_board R _)
    | cell r f => exact handle_cell_board_or_idle R _ r f
    | timeout => exact Or.inl rfl
  · cases pm with
    | none => rfl
    | some m => simpa [drain_play] using update_ui_selected R _
  · cases pm with
    | none => rfl
    | some m => simpa [drain_play] using update_ui_valid R _

/-- C8 (counterexample).  In bot mode with White (the human) to move it is
not the automated opponent's turn, yet the pass-turn control is rendered
disabled — the source disables it whenever bot mode is on. -/
theorem claim_C8_counterexample :
    (render_view ToyRules stC8).skip_disabled = true ∧
    ¬(stC8.is_bot_enabled = true ∧ ToyRules.turn stC8.board = PColor.black) := by
  decide

/-- C8 (amended).  The pass-turn control is disabled exactly when the
opponent mode (bot) is enabled, regardless of whose turn it is, and
enabled whenever bot mode is off. -/
theorem claim_C8_amended (R : Rules P M) (st : GState P M) :
    (render_view R st).skip_disabled = st.is_bot_enabled := rfl

/-- C9.  Executing the opponent-mode toggle (second, confirming trigger)
always resets the Position to the initial position, clears the game-over
latch, clears the Selection, and flips the bot flag; provided the initial
position is not terminal (true of chess), the latch stays false after the
redraw. -/
theorem claim_C9 (R : Rules P M) [DecidableEq M] (st : GState P M)
    (pq sq : Option M)
    (hpend : GatedId.toggleBot ∈ st.confirm_states)
    (hstart : R.is_game_over R.startpos = false) :
    ((tick R st Event.toggleBot pq sq).1).board = R.startpos ∧
    ((tick R st Event.toggleBot pq sq).1).game_over_notified = false ∧
    ((tick R st Event.toggleBot pq sq).1).selected_square = none ∧
    ((tick R st Event.toggleBot pq sq).1).valid_moves_squares = [] ∧
    ((tick R st Event.toggleBot pq sq).1).is_bot_enabled = !st.is_bot_enabled := by
  unfold tick handleEvent handle_gated gated_common_tail
  simp only [hpend, if_true]
  refine ⟨?_, ?_, ?_, ?_, ?_⟩
  · simpa using update_ui_board R _
  · simp [update_ui_gon, reset_selection, hstart]
  · simpa using update_ui_selected R _
  · simpa using update_ui_valid R _
  · simpa using update_ui_bot R _

/-- C9 (witness): the theorem applied at a concrete pending state. -/
theorem claim_C9_witness :
    GatedId.toggleBot ∈ stC9.confirm_states ∧
    ToyRules.is_game_over ToyRules.startpos = false ∧
    (((tick ToyRules stC9 Event.toggleBot none none).1).board = ToyRules.startpos ∧
     ((tick ToyRules stC9 Event.toggleBot none none).1).game_over_notified = false ∧
     ((tick ToyRules stC9 Event.toggleBot none none).1).selected_square = none ∧
     ((tick ToyRules stC9 Event.toggleBot none none).1).valid_moves_squares = [] ∧
     ((tick ToyRules stC9 Event.toggleBot none none).1).is_bot_enabled
       = !stC9.is_bot_enabled) :=
  ⟨by decide, by decide,
   claim_C9 ToyRules stC9 none none (by decide) (by decide)⟩

/-- C10.  A cell click received while the Position is terminal is ignored
entirely: with nothing pending on the queues, the tick leaves every state
component unchanged except that the confirmation set is cleared (which the
source does for every non-timeout event), and no effect — in particular no
notice — is produced. -/
theorem claim_C10 (R : Rules P M) [DecidableEq M] (st : GState P M)
    (r f : Nat) (hover : R.is_game_over st.board = true) :
    (tick R st (Event.cell r f) none none).1 = { st with confirm_states := [] } ∧
    (tick R st (Event.cell r f) none none).2 = [] := by
  unfold tick handleEvent handle_cell
  simp [hover, drain_play, drain_sugg]

/-- C10 (witness): the theorem applied at a concrete terminal state. -/
theorem claim_C10_witness :
    ToyRules.is_game_over stC10.board = true ∧
    ((tick ToyRules stC10 (Event.cell 2 3) none none).1
        = { stC10 with confirm_states := [] } ∧
     (tick ToyRules stC10 (Event.cell 2 3) none none).2 = []) :=
  ⟨by decide, claim_C10 ToyRules stC10 2 3 (by decide)⟩

/-- C3.  The source colour computation coincides, for every square and
every state, with the specification's strict first-match priority chain
(selection, capture, castling/en-passant, suggestion with its gating
conditions, plain destination shaded by parity, base checkerboard
colour).  The hypothesis records the collaborator fact that legal moves
are truthy (no null move is ever legal), which the source relies on. -/
theorem claim_C3 (R : Rules P M) [DecidableEq M] (st : GState P M)
    (hT : ∀ m ∈ R.legal_moves st.board, R.truthy m = true) (sq : Nat) :
    get_sq_color R st sq = resolveSpec R st sq := by
  unfold get_sq_color resolveSpec
  by_cases h1 : st.selected_square = some sq
  · simp [h1]
  · simp only [h1, if_false]
    cases hd : List.lookup sq st.valid_moves_squares with
    | none =>
      simp only [hd]
      cases hs : st.engine_suggestion with
      | none => simp
      | some sugg =>
        by_cases hm : sugg ∈ R.legal_moves st.board
        · by_cases ha : st.is_assistant_enabled = true <;>
            by_cases hep : (sq == R.from_square sugg || sq == R.to_square sugg) = true <;>
            by_cases hbt : (st.is_bot_enabled && decide (R.turn st.board = PColor.black)) = true <;>
            simp [hT sugg hm, hm, ha, hep, hbt]
        · simp [hm]
    | some mv =>
      simp only [hd]
      by_cases hc : R.is_capture st.board mv
      · simp [hc]
      · simp only [hc, if_false]
        by_cases he : R.is_en_passant st.board mv
        · simp [he]
        · simp only [he, Bool.false_or]
          by_cases hca : R.is_castling st.board mv
          · simp [hca]
          · simp only [hca, if_false]
            cases hs : st.engine_suggestion with
            | none => simp
            | some sugg =>
              by_cases hm : sugg ∈ R.legal_moves st.board
              · by_cases ha : st.is_assistant_enabled = true <;>
                  by_cases hep : (sq == R.from_square sugg || sq == R.to_square sugg) = true <;>
                  by_cases hbt : (st.is_bot_enabled && decide (R.turn st.board = PColor.black)) = true <;>
                  simp [hT sugg hm, hm, ha, hep, hbt]
              · simp [hm]

/-- C3 (witness): the refinement theorem applied to a concrete state, at a
square that is both a destination and a suggestion endpoint. -/
theorem claim_C3_witness :
    (∀ m ∈ ToyRules.legal_moves stC3.board, ToyRules.truthy m = true) ∧
    get_sq_color ToyRules stC3 0 = resolveSpec ToyRules stC3 0 :=
  ⟨by decide, claim_C3 ToyRules stC3 (by decide) 0⟩

/-- C4 (counterexample).  A reachable trace: the assistant is turned on, a
legal suggestion is drained and installed, then a pass-turn mutates the
Position.  The stored Suggestion is still present afterwards although it
is no longer legal in the current Position — the interaction loop never
clears a suggestion that became illegal. -/
theorem claim_C4_counterexample :
    ((run ToyRules (initState ToyRules)
        [⟨Event.asistente, none, none⟩, ⟨Event.timeout, none, some 0⟩,
         ⟨Event.skip, none, none⟩]).1).is_assistant_enabled = true ∧
    ((run ToyRules (initState ToyRules)
        [⟨Event.asistente, none, none⟩, ⟨Event.timeout, none, some 0⟩,
         ⟨Event.skip, none, none⟩]).1).engine_suggestion = some 0 ∧
    0 ∉ ToyRules.legal_moves
        ((run ToyRules (initState ToyRules)
            [⟨Event.asistente, none, none⟩, ⟨Event.timeout, none, some 0⟩,
             ⟨Event.skip, none, none⟩]).1).board := by
  decide

/-- C4 (amended).  The stored Suggestion may dangle (remain set while
illegal in the current Position; it is cleared only by the assistant
toggle's clearing branch and by the play-channel drain), but it is never
displayed while illegal: colour resolution re-checks legality on every
redraw, so no square is ever painted a suggestion colour when the stored
Suggestion is illegal in the current Position. -/
theorem claim_C4_amended (R : Rules P M) [DecidableEq M] (st : GState P M)
    (s : M) (sq : Nat) (h1 : st.engine_suggestion = some s)
    (h2 : s ∉ R.legal_moves st.board) :
    get_sq_color R st sq ≠ COLORS_SUGGESTED_P1 ∧
    get_sq_color R st sq ≠ COLORS_SUGGESTED_P2 := by
  have hd : decide (s ∈ R.legal_moves st.board) = false := decide_eq_false h2
  constructor <;>
  · unfold get_sq_color
    simp [h1, hd]
    split
    · decide
    · split
      · rename_i c hc2
        split at hc2
        · split at hc2
          · cases hc2; decide
          · split at hc2
            · cases hc2; decide
            · cases hc2
        · cases hc2
      · split
        · split <;> decide
        · split <;> decide

/-- C4 (witness): the amended theorem applied at `stC4`, at the square the
dangling suggestion points to. -/
theorem claim_C4_witness :
    stC4.engine_suggestion = some 3 ∧
    3 ∉ ToyRules.legal_moves stC4.board ∧
    (get_sq_color ToyRules stC4 3 ≠ COLORS_SUGGESTED_P1 ∧
     get_sq_color ToyRules stC4 3 ≠ COLORS_SUGGESTED_P2) :=
  ⟨rfl, by decide, claim_C4_amended ToyRules stC4 3 3 rfl (by decide)⟩

theorem handle_gated_confirm (R : Rules P M) (st : GState P M) (g : GatedId) :
    ((handle_gated R st g).1).confirm_states = [] ∨
    ((handle_gated R st g).1).confirm_states = [g] := by
  unfold handle_gated
  by_cases hg : g ∈ st.confirm_states
  · simp only [hg, if_true]
    cases g
    · left; unfold gated_common_tail; simpa using update_ui_confirm R _
    · left; rfl
    · left; unfold gated_common_tail; simpa using update_ui_confirm R _
  · right
    simp only [hg, if_false]
    simpa using update_ui_confirm R _

theorem handle_skip_confirm (R : Rules P M) (st : GState P M) :
    ((handle_skip R st).1).confirm_states = st.confirm_states := by
  unfold handle_skip
  simpa using update_ui_confirm R _

theorem handle_setboard_confirm (R : Rules P M) (st : GState P M)
    (fen : Option String) :
    ((handle_setboard R st fen).1).confirm_states = st.confirm_states := by
  unfold handle_setboard
  cases fen with
  | none => rfl
  | some f =>
    by_cases hf : f = ""
    · simp [hf]
    · simp only [hf, if_false]
      cases hfen : R.set_fen st.board f with
      | none => rfl
      | some b2 => simpa using update_ui_confirm R _

theorem handle_asistente_confirm (R : Rules P M) (st : GState P M) :
    ((handle_asistente R st).1).confirm_states = st.confirm_states := by
  unfold handle_asistente
  dsimp only
  split <;> simpa using update_ui_confirm R _

theorem handle_cell_confirm (R : Rules P M) [DecidableEq M]
    (st : GState P M) (r f : Nat) :
    ((handle_cell R st r f).1).confirm_states = st.confirm_states := by
  unfold handle_cell
  by_cases h1 : R.is_game_over st.board
  · simp [h1]
  · simp only [h1, if_false]
    by_cases h2 : bot_black_turn R st
    · simp [h2]
    · simp only [h2, if_false]
      cases hsel : st.selected_square with
      | none =>
        cases hp : R.piece_at st.board (r * 8 + f) with
        | none => simpa using update_ui_confirm R _
        | some piece =>
          by_cases hc : piece.color = R.turn st.board
          · simp only [hc, if_true]; simpa using update_ui_confirm R _
          · simp only [hc, if_false]; simpa using update_ui_confirm R _
      | some sel =>
        by_cases hsq : r * 8 + f = sel
        · simp only [hsq, if_true]; simpa using update_ui_confirm R _
        · simp only [hsq, if_false]
          cases hm : (R.legal_moves st.board).find?
              (fun m => R.from_square m == sel && R.to_square m == r * 8 + f) with
          | some m0 => simpa using update_ui_confirm R _
          | none => simpa using update_ui_confirm R _

theorem drain_play_confirm (R : Rules P M) (st : GState P M) (pm : Option M) :
    ((drain_play R st pm).1).confirm_states = st.confirm_states := by
  cases pm with
  | none => rfl
  | some m => simpa [drain_play] using update_ui_confirm R _

theorem drain_sugg_confirm (R : Rules P M) [DecidableEq M] (st : GState P M)
    (sm : Option M) :
    ((drain_sugg R st sm).1).confirm_states = st.confirm_states := by
  cases sm with
  | none => rfl
  | some m =>
    simp only [drain_sugg]
    by_cases hm : m ∈ R.legal_moves st.board
    · simp only [hm, if_true]
      simpa using update_ui_confirm R _
    · simp [hm]

theorem tick_confirm_le (R : Rules P M) [DecidableEq M] (st : GState P M)
    (ev : Event) (pq sq : Option M) (h : st.confirm_states.length ≤ 1) :
    ((tick R st ev pq sq).1).confirm_states.length ≤ 1 := by
  have key : ((handleEvent R st ev).1).confirm_states.length ≤ 1 := by
    cases ev with
    | restart =>
      rcases handle_gated_confirm R st GatedId.restart with hh | hh <;>
        simp [handleEvent, hh]
    | exitApp =>
      rcases handle_gated_confirm R st GatedId.exitApp with hh | hh <;>
        simp [handleEvent, hh]
    | toggleBot =>
      rcases handle_gated_confirm R st GatedId.toggleBot with hh | hh <;>
        simp [handleEvent, hh]
    | skip => simp [handleEvent, handle_skip_confirm]
    | setBoard fen => simp [handleEvent, handle_setboard_confirm]
    | asistente => simp [handleEvent, handle_asistente_confirm]
    | cell r f => simp [handleEvent, handle_cell_confirm]
    | timeout => simpa [handleEvent] using h
  unfold tick
  dsimp only
  split
  · rw [drain_sugg_confirm, drain_play_confirm]
    exact key
  · exact key

theorem run_confirm_le (R : Rules P M) [DecidableEq M]
    (inputs : List (TickInput M)) :
    ∀ st : GState P M, st.confirm_states.length ≤ 1 →
      ((run R st inputs).1).confirm_states.length ≤ 1 := by
  induction inputs with
  | nil => intro st h; exact h
  | cons i rest ih =>
    intro st h
    exact ih _ (tick_confirm_le R st i.ev i.pq i.sq h)

/-- C5.  Along every run of the interaction loop from the initial state,
the confirmation set holds at most one action identifier at every moment:
arming a gated action first clears the set, and every other event clears
it too. -/
theorem claim_C5 (R : Rules P M) [DecidableEq M]
    (inputs : List (TickInput M)) :
    ((run R (initState R) inputs).1).confirm_states.length ≤ 1 :=
  run_confirm_le R inputs (initState R) (by simp [initState])

theorem executed_notin_update_ui (R : Rules P M) (st : GState P M)
    (g : GatedId) : Effect.executed_gated g ∉ (update_ui R st).2 := by
  unfold update_ui
  split <;> simp

theorem executed_notin_gated (R : Rules P M) (st : GState P M)
    (g' g : GatedId) (hne : g' ≠ g) :
    Effect.executed_gated g ∉ (handle_gated R st g').2.1 := by
  unfold handle_gated
  by_cases hg : g' ∈ st.confirm_states
  · simp only [hg, if_true]
    cases g' <;>
      first
      | (intro hmem
         simp only [List.mem_singleton, List.mem_cons] at hmem
         rcases hmem with h | h | h
         · exact hne (by cases h; rfl)
         · exact (by cases h)
         · exact (by cases h))
      | (unfold gated_common_tail
         intro hmem
         simp only [List.mem_cons, List.mem_append] at hmem
         rcases hmem with h | h
         · exact hne (by cases h; rfl)
         · rcases h with h | h
           · exact executed_notin_update_ui R _ g h
           · revert h; split <;> simp)
  · simp only [hg, if_false]
    exact executed_notin_update_ui R _ g

theorem executed_notin_skip (R : Rules P M) (st : GState P M) (g : GatedId) :
    Effect.executed_gated g ∉ (handle_skip R st).2.1 := by
  unfold handle_skip
  dsimp only
  intro hmem
  rcases List.mem_append.mp hmem with h | h
  · exact executed_notin_update_ui R _ g h
  · revert h; split <;> simp

theorem executed_notin_setboard (R : Rules P M) (st : GState P M)
    (fen : Option String) (g : GatedId) :
    Effect.executed_gated g ∉ (handle_setboard R st fen).2.1 := by
  unfold handle_setboard
  cases fen with
  | none => simp
  | some f =>
    by_cases hf : f = ""
    · simp [hf]
    · simp only [hf, if_false]
      cases hfen : R.set_fen st.board f with
      | none => simp
      | some b2 =>
        intro hmem
        rcases List.mem_append.mp hmem with h | h
        · exact executed_notin_update_ui R _ g h
        · revert h; split <;> simp

theorem executed_notin_asistente (R : Rules P M) (st : GState P M)
    (g : GatedId) :
    Effect.executed_gated g ∉ (handle_asistente R st).2.1 := by
  unfold handle_asistente
  dsimp only
  intro hmem
  rcases List.mem_append.mp hmem with h | h
  · revert h; split <;> simp
  · exact executed_notin_update_ui R _ g h

theorem executed_notin_pair (g : GatedId) (c d : Bool) (x y : P) :
    Effect.executed_gated (P := P) (M := M) g ∉
      (if c = true then [Effect.dispatch_play x]
       else if d = true then [Effect.dispatch_suggest y] else []) := by
  cases c <;> cases d <;> simp

theorem executed_notin_ite (g : GatedId) (c : Bool) (l : List (Effect P M))
    (hl : Effect.executed_gated g ∉ l) :
    Effect.executed_gated g ∉ (if c = true then l else []) := by
  cases c <;> simp [hl]

theorem executed_notin_cell (R : Rules P M) [DecidableEq M]
    (st : GState P M) (r f : Nat) (g : GatedId) :
    Effect.executed_gated g ∉ (handle_cell R st r f).2.1 := by
  unfold handle_cell
  by_cases h1 : R.is_game_over st.board
  · simp [h1]
  · simp only [h1, if_false]
    by_cases h2 : bot_black_turn R st
    · simp [h2]
    · simp only [h2, if_false]
      cases hsel : st.selected_square with
      | none =>
        cases hp : R.piece_at st.board (r * 8 + f) with
        | none => exact executed_notin_update_ui R _ g
        | some piece =>
          by_cases hc : piece.color = R.turn st.board
          · simp only [hc, if_true]
            exact executed_notin_update_ui R _ g
          · simp only [hc, if_false]
            intro hmem
            rcases List.mem_cons.mp hmem with h | h
            · exact (by cases h)
            · exact executed_notin_update_ui R _ g h
      | some sel =>
        by_cases hsq : r * 8 + f = sel
        · simp only [hsq, if_true]
          exact executed_notin_update_ui R _ g
        · simp only [hsq, if_false]
          cases hm : (R.legal_moves st.board).find?
              (fun m => R.from_square m == sel && R.to_square m == r * 8 + f) with
          | some m0 =>
            intro hmem
            rcases List.mem_append.mp hmem with h | h
            · exact absurd h
                (executed_notin_ite g _ _ (executed_notin_pair g _ _ _ _))
            · exact executed_notin_update_ui R _ g h
          | none =>
            intro hmem
            rcases List.mem_cons.mp hmem with h | h
            · exact (by cases h)
            · exact executed_notin_update_ui R _ g h

theorem executed_notin_drain_play (R : Rules P M) (st : GState P M)
    (pm : Option M) (g : GatedId) :
    Effect.executed_gated g ∉ (drain_play R st pm).2 := by
  cases pm with
  | none => simp [drain_play]
  | some m =>
    simp only [drain_play]
    intro hmem
    rcases List.mem_append.mp hmem with h | h
    · revert h; split <;> simp
    · exact executed_notin_update_ui R _ g h

theorem executed_notin_drain_sugg (R : Rules P M) [DecidableEq M]
    (st : GState P M) (sm : Option M) (g : GatedId) :
    Effect.executed_gated g ∉ (drain_sugg R st sm).2 := by
  cases sm with
  | none => simp [drain_sugg]
  | some m =>
    simp only [drain_sugg]
    split
    · exact executed_notin_update_ui R _ g
    · simp

theorem executed_notin_handleEvent (R : Rules P M) [DecidableEq M]
    (st : GState P M) (ev : Event) (g : GatedId)
    (hdiff : ev ≠ gated_event g) :
    Effect.executed_gated g ∉ (handleEvent R st ev).2.1 := by
  cases ev with
  | restart =>
    refine executed_notin_gated R st GatedId.restart g ?_
    intro hEq; cases hEq; exact hdiff rfl
  | exitApp =>
    refine executed_notin_gated R st GatedId.exitApp g ?_
    intro hEq; cases hEq; exact hdiff rfl
  | toggleBot =>
    refine executed_notin_gated R st GatedId.toggleBot g ?_
    intro hEq; cases hEq; exact hdiff rfl
  | skip => exact executed_notin_skip R _ g
  | setBoard fen => exact executed_notin_setboard R _ fen g
  | asistente => exact executed_notin_asistente R _ g
  | cell r f => exact executed_notin_cell R _ r f g
  | timeout => simp [handleEvent]

theorem executed_notin_tick (R : Rules P M) [DecidableEq M]
    (st : GState P M) (ev : Event) (pq sq : Option M) (g : GatedId)
    (hdiff : ev ≠ gated_event g) :
    Effect.executed_gated g ∉ (tick R st ev pq sq).2 := by
  unfold tick
  dsimp only
  split
  · intro hmem
    rcases List.mem_append.mp hmem with h12 | h3
    · rcases List.mem_append.mp h12 with h1 | h2
      · exact executed_notin_handleEvent R st ev g hdiff h1
      · exact executed_notin_drain_play R _ pq g h2
    · exact executed_notin_drain_sugg R _ sq g h3
  · exact executed_notin_handleEvent R st ev g hdiff

theorem handleEvent_confirm_excludes (R : Rules P M) [DecidableEq M]
    (st : GState P M) (ev : Event) (g : GatedId)
    (hctrl : ev ≠ Event.timeout) (hdiff : ev ≠ gated_event g) :
    g ∉ ((handleEvent R st ev).1).confirm_states := by
  cases ev with
  | restart =>
    have hne : GatedId.restart ≠ g := by
      intro hEq; cases hEq; exact hdiff rfl
    rcases handle_gated_confirm R st GatedId.restart with hh | hh <;>
      simp [handleEvent, hh, (Ne.symm hne)]
  | exitApp =>
    have hne : GatedId.exitApp ≠ g := by
      intro hEq; cases hEq; exact hdiff rfl
    rcases handle_gated_confirm R st GatedId.exitApp with hh | hh <;>
      simp [handleEvent, hh, (Ne.symm hne)]
  | toggleBot =>
    have hne : GatedId.toggleBot ≠ g := by
      intro hEq; cases hEq; exact hdiff rfl
    rcases handle_gated_confirm R st GatedId.toggleBot with hh | hh <;>
      simp [handleEvent, hh, (Ne.symm hne)]
  | skip => simp [handleEvent, handle_skip_confirm]
  | setBoard fen => simp [handleEvent, handle_setboard_confirm]
  | asistente => simp [handleEvent, handle_asistente_confirm]
  | cell r f => simp [handleEvent, handle_cell_confirm]
  | timeout => exact absurd rfl hctrl

theorem tick_confirm_excludes (R : Rules P M) [DecidableEq M]
    (st : GState P M) (ev : Event) (pq sq : Option M) (g : GatedId)
    (hctrl : ev ≠ Event.timeout) (hdiff : ev ≠ gated_event g) :
    g ∉ ((tick R st ev pq sq).1).confirm_states := by
  unfold tick
  dsimp only
  split
  · rw [drain_sugg_confirm, drain_play_confirm]
    exact handleEvent_confirm_excludes R st ev g hctrl hdiff
  · exact handleEvent_confirm_excludes R st ev g hctrl hdiff

/-- C6.  While the gated action `g` is pending confirmation, any trigger of
a different control (gated or not) behaves exactly as it would with
nothing pending (the pending entry is cancelled by distraction and the new
event is processed normally), the pending action is never executed, and
`g` is no longer pending afterwards; `g` itself is executed precisely by a
second trigger of its own event. -/
theorem claim_C6 (R : Rules P M) [DecidableEq M] (st : GState P M)
    (ev : Event) (pq sq : Option M) (g : GatedId)
    (hpend : st.confirm_states = [g])
    (hctrl : ev ≠ Event.timeout)
    (hdiff : ev ≠ gated_event g) :
    tick R st ev pq sq = tick R { st with confirm_states := [] } ev pq sq ∧
    Effect.executed_gated g ∉ (tick R st ev pq sq).2 ∧
    g ∉ ((tick R st ev pq sq).1).confirm_states ∧
    Effect.executed_gated g ∈ (tick R st (gated_event g) pq sq).2 := by
  refine ⟨?_, executed_notin_tick R st ev pq sq g hdiff,
          tick_confirm_excludes R st ev pq sq g hctrl hdiff, ?_⟩
  · cases ev with
    | restart =>
      have hne : GatedId.restart ≠ g := by
        intro hEq; cases hEq; exact hdiff rfl
      have h1 : GatedId.restart ∉ st.confirm_states := by
        rw [hpend]; simp [hne]
      have h2 : GatedId.restart ∉
          ({ st with confirm_states := [] } : GState P M).confirm_states := by
        simp
      unfold tick handleEvent handle_gated
      rw [if_neg h1, if_neg h2]
    | exitApp =>
      have hne : GatedId.exitApp ≠ g := by
        intro hEq; cases hEq; exact hdiff rfl
      have h1 : GatedId.exitApp ∉ st.confirm_states := by
        rw [hpend]; simp [hne]
      have h2 : GatedId.exitApp ∉
          ({ st with confirm_states := [] } : GState P M).confirm_states := by
        simp
      unfold tick handleEvent handle_gated
      rw [if_neg h1, if_neg h2]
    | toggleBot =>
      have hne : GatedId.toggleBot ≠ g := by
        intro hEq; cases hEq; exact hdiff rfl
      have h1 : GatedId.toggleBot ∉ st.confirm_states := by
        rw [hpend]; simp [hne]
      have h2 : GatedId.toggleBot ∉
          ({ st with confirm_states := [] } : GState P M).confirm_states := by
        simp
      unfold tick handleEvent handle_gated
      rw [if_neg h1, if_neg h2]
    | skip => rfl
    | setBoard fen => rfl
    | asistente => rfl
    | cell r f => rfl
    | timeout => exact absurd rfl hctrl
  · cases g <;>
      simp [tick, handleEvent, handle_gated, gated_common_tail, gated_event, hpend]

/-- C6 (witness): with restart pending, triggering the opponent-mode
toggle cancels the pending restart without executing it; a second restart
trigger would have executed it. -/
theorem claim_C6_witness :
    stC6.confirm_states = [GatedId.restart] ∧
    Event.toggleBot ≠ Event.timeout ∧
    Event.toggleBot ≠ gated_event GatedId.restart ∧
    (tick ToyRules stC6 Event.toggleBot none none
        = tick ToyRules { stC6 with confirm_states := [] } Event.toggleBot none none ∧
     Effect.executed_gated GatedId.restart
        ∉ (tick ToyRules stC6 Event.toggleBot none none).2 ∧
     GatedId.restart ∉ ((tick ToyRules stC6 Event.toggleBot none none).1).confirm_states ∧
     Effect.executed_gated GatedId.restart
        ∈ (tick ToyRules stC6 (gated_event GatedId.restart) none none).2) :=
  ⟨rfl, by decide, by decide,
   claim_C6 ToyRules stC6 Event.toggleBot none none GatedId.restart rfl
     (by decide) (by decide)⟩

theorem gonok_pure (st st1 : GState P M) (e : List (Effect P M))
    (hg : st1.game_over_notified = st.game_over_notified)
    (he : popups e = 0) : GonOk st (st1, e) := by
  unfold GonOk
  simp [he, hg]

theorem gonok_update_shift (R : Rules P M) (st st1 : GState P M)
    (hg : st1.game_over_notified = st.game_over_notified) :
    GonOk st (update_ui R st1) := by
  unfold GonOk update_ui
  cases h1 : R.is_game_over st1.board <;>
    cases h2 : st1.game_over_notified <;>
    simp_all [popups]

theorem gonok_comp (st : GState P M) (p q : GState P M × List (Effect P M))
    (hp : GonOk st p) (hq : GonOk p.1 q) :
    GonOk st (q.1, p.2 ++ q.2) := by
  obtain ⟨hp1, hp2, hp3, hp4⟩ := hp
  obtain ⟨hq1, hq2, hq3, hq4⟩ := hq
  refine ⟨?_, ?_, ?_, ?_⟩
  · show popups (p.2 ++ q.2) ≤ 1
    rw [popups_append]
    rcases Nat.eq_zero_or_pos (popups p.2) with h0 | hpos
    · simpa [h0] using hq1
    · have hg := hp4 hpos
      have hz := (hq2 hg).2
      omega
  · intro hgon
    obtain ⟨hg1, hz1⟩ := hp2 hgon
    obtain ⟨hg2, hz2⟩ := hq2 hg1
    exact ⟨hg2, by show popups (p.2 ++ q.2) = 0; rw [popups_append, hz1, hz2]⟩
  · intro hz
    rw [show popups ((q.1, p.2 ++ q.2)).2 = popups (p.2 ++ q.2) from rfl,
        popups_append] at hz
    have hz1 : popups p.2 = 0 := by omega
    have hz2 : popups q.2 = 0 := by omega
    show q.1.game_over_notified = st.game_over_notified
    rw [hq3 hz2, hp3 hz1]
  · intro hpos
    rw [show popups ((q.1, p.2 ++ q.2)).2 = popups (p.2 ++ q.2) from rfl,
        popups_append] at hpos
    rcases Nat.eq_zero_or_pos (popups q.2) with h0 | hq0
    · have hp0 : 0 < popups p.2 := by omega
      show q.1.game_over_notified = true
      rw [hq3 h0, hp4 hp0]
    · exact hq4 hq0

theorem gonok_congr (st st1 : GState P M) (p : GState P M × List (Effect P M))
    (h : GonOk st1 p)
    (hg : st.game_over_notified = st1.game_over_notified) : GonOk st p := by
  unfold GonOk at h ⊢
  rw [hg]
  exact h

theorem gonok_preext (st : GState P M) (p : GState P M × List (Effect P M))
    (e : List (Effect P M)) (hp : GonOk st p) (he : popups e = 0) :
    GonOk st (p.1, e ++ p.2) :=
  gonok_comp st (st, e) p (gonok_pure st st e rfl he) hp

theorem gonok_extend (st : GState P M) (p : GState P M × List (Effect P M))
    (e : List (Effect P M)) (hp : GonOk st p) (he : popups e = 0) :
    GonOk st (p.1, p.2 ++ e) :=
  gonok_comp st p (p.1, e) hp (gonok_pure p.1 p.1 e rfl he)

theorem popups_dispatch_pair (c d : Bool) (x y : P) :
    popups (M := M)
      (if c = true then [Effect.dispatch_play x]
       else if d = true then [Effect.dispatch_suggest y] else []) = 0 := by
  cases c <;> cases d <;> simp [popups]

theorem popups_dispatch_ite (c : Bool) (l : List (Effect P M))
    (hl : popups l = 0) : popups (if c = true then l else []) = 0 := by
  cases c
  · simp [popups]
  · simpa using hl

theorem gonok_gated_exit (R : Rules P M) (st : GState P M) :
    GonOk st ((handle_gated R st GatedId.exitApp).1,
              (handle_gated R st GatedId.exitApp).2.1) := by
  unfold handle_gated
  by_cases hg : GatedId.exitApp ∈ st.confirm_states
  · simp only [hg, if_true]
    exact gonok_pure st _ _ rfl (by simp [popups])
  · simp only [hg, if_false]
    exact gonok_update_shift R st _ rfl

theorem gonok_skip (R : Rules P M) (st : GState P M) :
    GonOk st ((handle_skip R st).1, (handle_skip R st).2.1) := by
  unfold handle_skip
  dsimp only
  exact gonok_extend st _ _ (gonok_update_shift R st _ rfl)
    (popups_dispatch_pair _ _ _ _)

theorem gonok_asistente (R : Rules P M) (st : GState P M) :
    GonOk st ((handle_asistente R st).1, (handle_asistente R st).2.1) := by
  unfold handle_asistente
  dsimp only
  split
  · exact gonok_preext st _ _ (gonok_update_shift R st _ rfl) (by simp [popups])
  · exact gonok_preext st _ _ (gonok_update_shift R st _ rfl) (by simp [popups])

theorem gonok_cell (R : Rules P M) [DecidableEq M] (st : GState P M)
    (r f : Nat) :
    GonOk st ((handle_cell R st r f).1, (handle_cell R st r f).2.1) := by
  unfold handle_cell
  by_cases h1 : R.is_game_over st.board
  · simp only [h1, if_true]
    exact gonok_pure st st [] rfl rfl
  · simp only [h1, if_false]
    by_cases h2 : bot_black_turn R st
    · simp only [h2, if_true]
      exact gonok_pure st st [] rfl rfl
    · simp only [h2, if_false]
      cases hsel : st.selected_square with
      | none =>
        cases hp : R.piece_at st.board (r * 8 + f) with
        | none => exact gonok_update_shift R st _ rfl
        | some piece =>
          by_cases hc : piece.color = R.turn st.board
          · simp only [hc, if_true]
            exact gonok_update_shift R st _ rfl
          · simp only [hc, if_false]
            exact gonok_comp st (st, [Effect.wrong_turn_notice]) _
              (gonok_pure st st _ rfl (by simp [popups]))
              (gonok_update_shift R st _ rfl)
      | some sel =>
        by_cases hsq : r * 8 + f = sel
        · simp only [hsq, if_true]
          exact gonok_update_shift R st _ rfl
        · simp only [hsq, if_false]
          cases hm : (R.legal_moves st.board).find?
              (fun m => R.from_square m == sel && R.to_square m == r * 8 + f) with
          | some m0 =>
            exact gonok_preext st _ _ (gonok_update_shift R st _ rfl)
              (popups_dispatch_ite _ _ (popups_dispatch_pair _ _ _ _))
          | none =>
            exact gonok_comp st (st, [Effect.invalid_move_notice]) _
              (gonok_pure st st _ rfl (by simp [popups]))
              (gonok_update_shift R st _ rfl)

theorem gonok_drain_play (R : Rules P M) (st : GState P M) (pm : Option M) :
    GonOk st (drain_play R st pm) := by
  cases pm with
  | none => exact gonok_pure st st [] rfl rfl
  | some m =>
    simp only [drain_play]
    exact gonok_preext st _ _ (gonok_update_shift R st _ rfl)
      (popups_dispatch_ite _ _ (by simp [popups]))

theorem gonok_drain_sugg (R : Rules P M) [DecidableEq M] (st : GState P M)
    (sm : Option M) : GonOk st (drain_sugg R st sm) := by
  cases sm with
  | none => exact gonok_pure st st [] rfl rfl
  | some m =>
    simp only [drain_sugg]
    split
    · exact gonok_update_shift R st _ rfl
    · exact gonok_pure st st [] rfl rfl

theorem gonok_handleEvent (R : Rules P M) [DecidableEq M] (st : GState P M)
    (ev : Event) (hev : reset_family ev = false) :
    GonOk st ((handleEvent R st ev).1, (handleEvent R st ev).2.1) := by
  cases ev with
  | restart => simp [reset_family] at hev
  | toggleBot => simp [reset_family] at hev
  | setBoard fen => simp [reset_family] at hev
  | exitApp => exact gonok_gated_exit R st
  | skip => exact gonok_congr st _ _ (gonok_skip R _) rfl
  | asistente => exact gonok_congr st _ _ (gonok_asistente R _) rfl
  | cell r f => exact gonok_congr st _ _ (gonok_cell R _ r f) rfl
  | timeout => exact gonok_pure st st [] rfl rfl

theorem gonok_tick (R : Rules P M) [DecidableEq M] (st : GState P M)
    (ev : Event) (pq sq : Option M) (hev : reset_family ev = false) :
    GonOk st (tick R st ev pq sq) := by
  unfold tick
  dsimp only
  split
  · exact gonok_comp st _ _
      (gonok_comp st _ _ (gonok_handleEvent R st ev hev)
        (gonok_drain_play R _ pq))
      (gonok_drain_sugg R _ sq)
  · exact gonok_handleEvent R st ev hev

theorem gon_run_suppressed (R : Rules P M) [DecidableEq M] :
    ∀ inputs : List (TickInput M),
      inputs.all (fun i => !reset_family i.ev) = true →
      ∀ st : GState P M, st.game_over_notified = true →
        popups (run R st inputs).2 = 0 ∧
        ((run R st inputs).1).game_over_notified = true := by
  intro inputs
  induction inputs with
  | nil => intro _ st h; exact ⟨rfl, h⟩
  | cons i rest ih =>
    intro hno st h
    rw [List.all_cons, Bool.and_eq_true] at hno
    obtain ⟨hi0, hrest⟩ := hno
    have hi : reset_family i.ev = false := by
      cases hre : reset_family i.ev
      · rfl
      · rw [hre] at hi0; cases hi0
    obtain ⟨ht1, ht2, ht3, ht4⟩ := gonok_tick R st i.ev i.pq i.sq hi
    obtain ⟨hg, hz⟩ := ht2 h
    obtain ⟨hz2, hg2⟩ := ih hrest (tick R st i.ev i.pq i.sq).1 hg
    constructor
    · show popups ((tick R st i.ev i.pq i.sq).2
          ++ (run R (tick R st i.ev i.pq i.sq).1 rest).2) = 0
      rw [popups_append, hz, hz2]
    · exact hg2

theorem gon_run_le (R : Rules P M) [DecidableEq M] :
    ∀ inputs : List (TickInput M),
      inputs.all (fun i => !reset_family i.ev) = true →
      ∀ st : GState P M, popups (run R st inputs).2 ≤ 1 := by
  intro inputs
  induction inputs with
  | nil => intro _ st; simp [run, popups]
  | cons i rest ih =>
    intro hno st
    rw [List.all_cons, Bool.and_eq_true] at hno
    obtain ⟨hi0, hrest⟩ := hno
    have hi : reset_family i.ev = false := by
      cases hre : reset_family i.ev
      · rfl
      · rw [hre] at hi0; cases hi0
    obtain ⟨ht1, ht2, ht3, ht4⟩ := gonok_tick R st i.ev i.pq i.sq hi
    show popups ((tick R st i.ev i.pq i.sq).2
        ++ (run R (tick R st i.ev i.pq i.sq).1 rest).2) ≤ 1
    rw [popups_append]
    rcases Nat.eq_zero_or_pos (popups (tick R st i.ev i.pq i.sq).2) with h0 | hpos
    · have := ih hrest (tick R st i.ev i.pq i.sq).1
      omega
    · have hg := ht4 hpos
      have hz := (gon_run_suppressed R rest hrest
        (tick R st i.ev i.pq i.sq).1 hg).1
      omega

/-- C7.  The terminal-outcome report is one-shot: along any run of the
loop in which no reset, opponent-mode toggle, or position-load event
occurs, at most one game-over popup is emitted; and whenever a redraw
observes a terminal position with the latch clear, it emits the popup and
sets the latch (so the report fires exactly once when terminal state is
first observed, and never again until a reset clears the latch). -/
theorem claim_C7 (R : Rules P M) [DecidableEq M] (st : GState P M)
    (inputs : List (TickInput M))
    (hno : inputs.all (fun i => !reset_family i.ev) = true) :
    popups (run R st inputs).2 ≤ 1 ∧
    (R.is_game_over st.board = true → st.game_over_notified = false →
      popups (update_ui R st).2 = 1 ∧
      ((update_ui R st).1).game_over_notified = true) := by
  refine ⟨gon_run_le R inputs hno st, ?_⟩
  intro hov hgon
  constructor
  · simp [update_ui_popups, hov, hgon]
  · simp [update_ui_gon, hov, hgon]

/-- C7 (witness): a concrete one-tick run over a terminal position with no
reset events emits at most one popup, and the redraw fires the report and
latches. -/
theorem claim_C7_witness :
    ([⟨Event.asistente, none, none⟩] : List (TickInput Nat)).all
        (fun i => !reset_family i.ev) = true ∧
    ToyRules.is_game_over stC7.board = true ∧
    stC7.game_over_notified = false ∧
    popups (run ToyRules stC7 [⟨Event.asistente, none, none⟩]).2 ≤ 1 ∧
    popups (update_ui ToyRules stC7).2 = 1 ∧
    ((update_ui ToyRules stC7).1).game_over_notified = true :=
  ⟨by decide, by decide, rfl,
   (claim_C7 ToyRules stC7 [⟨Event.asistente, none, none⟩] (by decide)).1,
   ((claim_C7 ToyRules stC7 [⟨Event.asistente, none, none⟩]
       (by decide)).2 (by decide) rfl).1,
   ((claim_C7 ToyRules stC7 [⟨Event.asistente, none, none⟩]
       (by decide)).2 (by decide) rfl).2⟩
